import Mathlib

/-!
Verification of the proxy engine of `proxy-address-blocker`
(`src/service/proxy.rs`), shallowly embedded in Lean 4.

Machine integers are modelled as `Nat` (ports fit in 16 bits, instants are
seconds), Rust `Option`/`Result` as `Option`, shared cells as fields of an
explicit state record, and the coordinator thread of `Proxy::handle_events`
as a step function consumed over a list of received events.
-/

/-! ## Substring matching

The traffic filter tests whether a pattern occurs as a contiguous substring
of the request URI (Rust `str::contains` on literal strings). -/

/-- Decides whether `p` is a prefix of `u` (character lists). -/
def hasPrefixChars : List Char → List Char → Bool
  | [], _ => true
  | _ :: _, [] => false
  | c :: cs, d :: ds => (c == d) && hasPrefixChars cs ds

/-- Decides whether `p` occurs as a contiguous substring of `u`
(character lists): `p` is a prefix of some suffix of `u`. -/
def hasSubChars : List Char → List Char → Bool
  | [], p => hasPrefixChars p []
  | c :: us, p => hasPrefixChars p (c :: us) || hasSubChars us p

/-- Rust `haystack.contains(needle)` for literal (non-pattern) needles. -/
def strContainsSub (haystack needle : String) : Bool :=
  hasSubChars haystack.toList needle.toList

/-- Specification-side reading of "`p` is a substring of `u`". -/
def specSubstring (p u : String) : Prop :=
  ∃ l r, u.toList = l ++ p.toList ++ r

/-! ## TrafficFilter

Modelled from the spec: `src/service/traffic_filter.rs` is not part of the
provided sources (only its callers in `proxy.rs` are), so the filter state
and the operations `get_enabled`, `in_filter_list` and `is_blocking` are
reconstructed from §3/§4.4 of the specification: a polarity (`Allow` list =
only listed URIs pass, so the filter blocks by default; `Deny` list = listed
URIs are blocked), an ordered pattern list, and substring matching. -/

/-- Filter polarity: `Allow` (allowlist) or `Deny` (denylist). -/
inductive TrafficFilterType where
  | Allow : TrafficFilterType
  | Deny : TrafficFilterType
deriving DecidableEq

/-- Modelled from the spec: the traffic-filter state
`{ enabled, polarity, patterns }` of §3. -/
structure TrafficFilter where
  enabled : Bool
  filter_type : TrafficFilterType
  filter_list : List String
deriving DecidableEq

/-- Modelled from the spec: `is_enabled()` accessor. -/
def TrafficFilter.get_enabled (tf : TrafficFilter) : Bool :=
  tf.enabled

/-- Modelled from the spec: `matches(uri)` — true iff any pattern in the
list is a (literal, case-sensitive) substring of the URI. -/
def TrafficFilter.in_filter_list (tf : TrafficFilter) (uri : String) : Bool :=
  tf.filter_list.any (fun p => strContainsSub uri p)

/-- Modelled from the spec: whether the filter blocks by default, i.e. the
polarity is `Allow` (an allowlist blocks everything not listed). -/
def TrafficFilter.is_blocking (tf : TrafficFilter) : Bool :=
  tf.filter_type = TrafficFilterType.Allow

/-- Specification-side predicate: some pattern of `L` is a substring of `u`. -/
def specMatched (L : List String) (u : String) : Prop :=
  ∃ p ∈ L, specSubstring p u

/-- Specification-side blocked formula of §4.3 / §8(3):
`(P=Deny ∧ matched) ∨ (P=Allow ∧ ¬matched)`. -/
def specBlocked (tf : TrafficFilter) (u : String) : Prop :=
  (tf.filter_type = TrafficFilterType.Deny ∧ specMatched tf.filter_list u) ∨
  (tf.filter_type = TrafficFilterType.Allow ∧ ¬ specMatched tf.filter_list u)

/-! ## Events, coordinator state and the event-handler loop

Embedding of `ProxyEvent`, `ProxyRequestLog` and the coordinator thread
spawned by `Proxy::handle_events` (`proxy.rs` lines 232-302). The shared
cells `status`, `run_time`, `event` (presence of the stored command sender)
and `requests` become fields of `CoordState`; instants are `Nat` seconds. -/

/-- Embedding of `ProxyRequestLog` (`proxy.rs` lines 73-78). -/
structure ProxyRequestLog where
  method : String
  request : String
  blocked : Bool
deriving DecidableEq

/-- Embedding of the `ProxyEvent` enum (`proxy.rs` lines 18-28). -/
inductive ProxyEvent where
  | Starting : ProxyEvent
  | Running : ProxyEvent
  | Stopped : ProxyEvent
  | Error : String → ProxyEvent
  | Terminating : ProxyEvent
  | Terminated : ProxyEvent
  | RequestEvent : ProxyRequestLog → ProxyEvent
deriving DecidableEq

/-- The shared cells of the `Proxy` struct that the coordinator thread
mutates: `status`, `run_time` (start instant in seconds, if set), `event`
(whether a command sender is stored) and `requests`. -/
structure CoordState where
  status : ProxyEvent
  run_time : Option Nat
  event : Bool
  requests : List ProxyRequestLog
deriving DecidableEq

/-- Initial shared state of `Proxy::default` / `Proxy::new`:
status `Stopped`, no run time, no sender, empty log. -/
def initCoordState : CoordState :=
  { status := ProxyEvent.Stopped, run_time := none, event := false,
    requests := [] }

/-- One iteration of the coordinator loop of `Proxy::handle_events`
(`proxy.rs` lines 249-295) on a received event, at current instant `now`.
Returns the new shared state and whether the loop breaks (only the
`Terminated` arm breaks). The catch-all arm of the Rust `match` stores the
received event itself into the status cell. -/
def handleEventsStep (now : Nat) (s : CoordState) (e : ProxyEvent) :
    CoordState × Bool :=
  match e with
  | ProxyEvent.Starting => ({ s with status := ProxyEvent.Starting }, false)
  | ProxyEvent.Running =>
      ({ s with run_time := some now, status := ProxyEvent.Running }, false)
  | ProxyEvent.Terminated =>
      ({ s with status := ProxyEvent.Stopped, run_time := none, event := false }, true)
  | ProxyEvent.Error message =>
      ({ s with status := ProxyEvent.Error message }, false)
  | ProxyEvent.RequestEvent request_log =>
      ({ s with requests := s.requests ++ [request_log] }, false)
  | other => ({ s with status := other }, false)

/-- The coordinator loop consuming a list of received events in order,
stopping early when an iteration breaks (after `Terminated`). -/
def handleEventsRun (now : Nat) (s : CoordState) :
    List ProxyEvent → CoordState
  | [] => s
  | e :: rest =>
    match handleEventsStep now s e with
    | (s2, true) => s2
    | (s2, false) => handleEventsRun now s2 rest

/-- The `Err` arm of the coordinator's `event_receiver.recv()` match
(`proxy.rs` lines 296-298): a channel teardown stores `Error(message)`. -/
def handleRecvErr (s : CoordState) (message : String) : CoordState :=
  { s with status := ProxyEvent.Error message }

/-- Embedding of `Proxy::get_run_time` (`proxy.rs` lines 397-403): elapsed
seconds since the stored start instant, or `0` when the cell is `None`
(the Rust code stringifies this number; we keep the `Nat`). -/
def get_run_time (now : Nat) (s : CoordState) : Nat :=
  match s.run_time with
  | some started => now - started
  | none => 0

/-! ## Control API: `send`, `stop`, `run`, `handle_server` -/

/-- Embedding of `Proxy::send` (`proxy.rs` lines 409-413): the event is
put on the channel only when a sender is stored; otherwise nothing
happens. Returns the event delivered to the coordinator, if any. -/
def Proxy.send (s : CoordState) (e : ProxyEvent) : Option ProxyEvent :=
  if s.event then some e else none

/-- Embedding of `Proxy.stop` (`proxy.rs` lines 226-229): publishes
`Terminating` through `send`. -/
def Proxy.stop (s : CoordState) : Option ProxyEvent :=
  Proxy.send s ProxyEvent.Terminating

/-- Delivery of an optional sent event to the coordinator: the shared
state is untouched when nothing was sent. -/
def deliver (now : Nat) (s : CoordState) (oe : Option ProxyEvent) :
    CoordState :=
  match oe with
  | none => s
  | some e => (handleEventsStep now s e).1

/-- Observable effect of one call to `Proxy::run` (`proxy.rs` lines
213-223): the updated shared state, which tasks were spawned, and the
event sent to the (new) coordinator. -/
structure RunResult where
  shared : CoordState
  spawned_coordinator : Bool
  spawned_server : Bool
  sent : Option ProxyEvent
deriving DecidableEq

/-- Effect of `Proxy::handle_events` on the shared state (`proxy.rs` line
235): a fresh channel is created and its sender stored unconditionally
(the coordinator thread it spawns is reported by the caller). -/
def Proxy.handle_events_install (s : CoordState) : CoordState :=
  { s with event := true }

/-- Embedding of `Proxy::run` (`proxy.rs` lines 213-223): calls
`handle_events` (installs a fresh sender, spawns the coordinator), sends
`Starting`, and calls `handle_server` (spawns the server thread). There is
no status check anywhere on this path. -/
def Proxy.run (s : CoordState) : RunResult :=
  let s1 := Proxy.handle_events_install s
  { shared := s1,
    spawned_coordinator := true,
    spawned_server := true,
    sent := Proxy.send s1 ProxyEvent.Starting }

/-- Whitespace trimming on character lists: drop whitespace from both
ends. -/
def trimChars (cs : List Char) : List Char :=
  ((cs.dropWhile Char.isWhitespace).reverse.dropWhile Char.isWhitespace).reverse

/-- Embedding of Rust `str::trim`: the string with leading and trailing
whitespace removed. -/
def rustTrim (s : String) : String :=
  String.mk (trimChars s.toList)

/-- Embedding of Rust `str::parse::<u16>` (`u16::from_str`): optional
leading `+`, at least one ASCII digit, all digits, value at most 65535. -/
def parse_u16 (s : String) : Option Nat :=
  let cs :=
    match s.toList with
    | '+' :: rest => rest
    | cs => cs
  if cs.isEmpty then none
  else if cs.all (fun c => c.isDigit) then
    let n := cs.foldl (fun a c => a * 10 + (c.toNat - 48)) 0
    if n ≤ 65535 then some n else none
  else none

/-- Outcome of the server thread spawned by `Proxy::handle_server`. -/
inductive ServerOutcome where
  | panicked : ServerOutcome
  | bind_error : Option ProxyEvent → ServerOutcome
  | listening : Option ProxyEvent → ServerOutcome
deriving DecidableEq

/-- Body of the thread spawned by `Proxy::handle_server` (`proxy.rs` lines
312-371), up to entering the accept loop. `bind_err` is the result of the
`TcpListener::bind` call (`none` = bound). The port is parsed with
`port.trim().parse::<u16>().unwrap()`: a parse failure panics the thread
before any bind or send. On bind success `Running` is sent (if a sender was
captured), on bind failure `Error(message)` is sent. -/
def Proxy.handle_server_body (bind_err : Option String) (sender : Bool)
    (port : String) : ServerOutcome :=
  match parse_u16 (rustTrim port) with
  | none => ServerOutcome.panicked
  | some _ =>
    match bind_err with
    | none =>
      ServerOutcome.listening
        (if sender then some ProxyEvent.Running else none)
    | some message =>
      ServerOutcome.bind_error
        (if sender then some (ProxyEvent.Error message) else none)

/-! ## Request Dispatcher

Embedding of `handle_request` (`proxy.rs` lines 505-610). A parsed hyper
request is modelled by the accessor results the code uses; the network is
an oracle giving the results of the `TcpStream::connect` dial, the client
handshake and the response read. -/

/-- Accessor results of a parsed hyper `Request` as used by
`handle_request`: `method`, the full `uri` string, `uri.host()`,
`uri.port_u16()` and `uri.authority()`. -/
structure HyperRequest where
  method : String
  uri : String
  host : Option String
  port_u16 : Option Nat
  authority : Option String
deriving DecidableEq

/-- Result of one fallible network step. -/
inductive NetStep where
  | ok : NetStep
  | err : String → NetStep
deriving DecidableEq

/-- Network oracle for one forwarded request: the dial to the origin, the
HTTP/1.1 client handshake, and `send_request` (reading the response). -/
structure NetEnv where
  dial : NetStep
  handshake : NetStep
  send_request : NetStep
deriving DecidableEq

/-- Observable outcome of `handle_request` for one request. `response` is
a proxy-generated response; `tunnel_started` is the CONNECT path returning
the empty 200 response and spawning the tunnel task; `forwarded` relays the
origin response; `task_panicked` is an `unwrap` panic inside the request
task; `hyper_error` is an `Err` returned to hyper, which closes the
connection without a response. -/
inductive DispatchOutcome where
  | response : Nat → String → DispatchOutcome
  | tunnel_started : String → DispatchOutcome
  | forwarded : String → Nat → DispatchOutcome
  | task_panicked : String → DispatchOutcome
  | hyper_error : String → DispatchOutcome
deriving DecidableEq

/-- The blocked flag computed by `handle_request` (`proxy.rs` lines
513-519), with the code's variable names. -/
def blocked_flag (tf : TrafficFilter) (request_uri : String) : Bool :=
  let is_excluded_address := tf.in_filter_list request_uri
  let is_traffic_blocking := tf.is_blocking
  let is_blocking_but_exluded := !is_excluded_address && is_traffic_blocking
  let is_allowing_but_excluded := is_excluded_address && !is_traffic_blocking
  is_allowing_but_excluded || is_blocking_but_exluded

/-- The method-dispatch part of `handle_request` (`proxy.rs` lines
553-609), reached when the request was not blocked: the CONNECT path
(tunnel or 400), then the forward path (dial is unwrapped — a dial failure
panics the task; handshake and response read use `?` — their failures are
returned to hyper). -/
def dispatchRest (net : NetEnv) (request : HyperRequest) : DispatchOutcome :=
  if request.method = "CONNECT" then
    match request.authority with
    | some addr => DispatchOutcome.tunnel_started addr
    | none => DispatchOutcome.response 400 "CONNECT must be to a socket address"
  else
    match request.host with
    | some host =>
      match net.dial with
      | NetStep.err message => DispatchOutcome.task_panicked message
      | NetStep.ok =>
        match net.handshake with
        | NetStep.err message => DispatchOutcome.hyper_error message
        | NetStep.ok =>
          match net.send_request with
          | NetStep.err message => DispatchOutcome.hyper_error message
          | NetStep.ok =>
            DispatchOutcome.forwarded host (request.port_u16.getD 80)
    | none => DispatchOutcome.response 400 "Host address could not be processed."

/-- Embedding of `handle_request` (`proxy.rs` lines 505-610). `event` is
whether the captured command sender is present (`Option<Sender>`); the
first component is the list of `ProxyRequestLog` records sent as
`RequestEvent`s (empty or a singleton), the second the response outcome.
When the filter is enabled a record is built and sent (if a sender is
present) regardless of `blocked`; a blocked request is answered 403
without forwarding; when the filter is disabled no record is produced. -/
def handle_request (net : NetEnv) (event : Bool) (tf : TrafficFilter)
    (request : HyperRequest) : List ProxyRequestLog × DispatchOutcome :=
  let request_uri := request.uri
  let blocked := blocked_flag tf request_uri
  let logged : List ProxyRequestLog :=
    if tf.get_enabled then
      if event then
        [{ method := request.method, request := request_uri, blocked := blocked }]
      else []
    else []
  (logged,
    if tf.get_enabled && blocked then
      DispatchOutcome.response 403 "Oopsie Whoopsie!"
    else
      dispatchRest net request)

/-! ## Concrete fixtures used by witnesses and counterexamples -/

/-- A deny-list filter containing one pattern, enabled. -/
def tfDeny : TrafficFilter :=
  { enabled := true, filter_type := TrafficFilterType.Deny,
    filter_list := ["blocked.test"] }

/-- A disabled filter. -/
def tfOff : TrafficFilter :=
  { enabled := false, filter_type := TrafficFilterType.Deny,
    filter_list := [] }

/-- A plain GET request whose URI contains the deny-listed pattern. -/
def reqGet : HyperRequest :=
  { method := "GET", uri := "http://blocked.test/x",
    host := some "blocked.test", port_u16 := none, authority := none }

/-- A plain GET request to an ordinary host. -/
def reqPlain : HyperRequest :=
  { method := "GET", uri := "http://ok.test/y",
    host := some "ok.test", port_u16 := none, authority := none }

/-- A network oracle in which every step succeeds. -/
def netOk : NetEnv :=
  { dial := NetStep.ok, handshake := NetStep.ok, send_request := NetStep.ok }

/-- A network oracle in which the dial to the origin fails. -/
def netDialFail : NetEnv :=
  { dial := NetStep.err "connection refused", handshake := NetStep.ok,
    send_request := NetStep.ok }

/-- A sample request record. -/
def recSample : ProxyRequestLog :=
  { method := "GET", request := "http://ok.test/y", blocked := false }

/-- A shared state as it looks while the proxy is running. -/
def runningState : CoordState :=
  { status := ProxyEvent.Running, run_time := some 0, event := true,
    requests := [recSample] }

/-- The shared state right after `handle_events` installed a sender
(as seen by the first `run` from the default state). -/
def liveInit : CoordState :=
  { initCoordState with event := true }

/-- Specification-side transition table of §4.1: `specTransition from cmd`
is `some to` when the table has a row `(from, cmd, to)`, and `none` for an
unexpected command (whose status, per the table, is left unchanged). -/
def specTransition : ProxyEvent → ProxyEvent → Option ProxyEvent
  | ProxyEvent.Stopped, ProxyEvent.Starting => some ProxyEvent.Starting
  | ProxyEvent.Starting, ProxyEvent.Running => some ProxyEvent.Running
  | ProxyEvent.Starting, ProxyEvent.Error m => some (ProxyEvent.Error m)
  | ProxyEvent.Running, ProxyEvent.Terminating => some ProxyEvent.Terminating
  | ProxyEvent.Running, ProxyEvent.Error m => some (ProxyEvent.Error m)
  | ProxyEvent.Running, ProxyEvent.RequestEvent _ => some ProxyEvent.Running
  | ProxyEvent.Terminating, ProxyEvent.Terminated => some ProxyEvent.Stopped
  | ProxyEvent.Error _, ProxyEvent.Starting => some ProxyEvent.Starting
  | _, _ => none

/-- Whether a `ProxyEvent` is one of the six declared states of §3
(i.e. not a `RequestEvent` payload). -/
def isDeclaredStatus : ProxyEvent → Bool
  | ProxyEvent.RequestEvent _ => false
  | _ => true

/-- Whether a `ProxyEvent` can be stored in the status cell by the
coordinator: one of the six declared states, and never `Terminated`
(which the `Terminated` arm collapses to `Stopped`). -/
def isStoredStatus : ProxyEvent → Bool
  | ProxyEvent.RequestEvent _ => false
  | ProxyEvent.Terminated => false
  | _ => true

/-- The status actually stored by one coordinator iteration: every command
overwrites the status unconditionally (`Terminated` stores `Stopped`,
`LogRequest` leaves it unchanged); the previous status is never consulted. -/
def actualNextStatus (current : ProxyEvent) : ProxyEvent → ProxyEvent
  | ProxyEvent.Terminated => ProxyEvent.Stopped
  | ProxyEvent.RequestEvent _ => current
  | e => e

/-- Shared state reached from the fresh live state by the event sequence
`Starting, Running, Terminating` with the `Running` command observed at
instant 3. -/
def c6State : CoordState :=
  handleEventsRun 3 liveInit
    [ProxyEvent.Starting, ProxyEvent.Running, ProxyEvent.Terminating]

/-! ## Helper lemmas -/

theorem hasPrefixChars_iff (p u : List Char) :
    hasPrefixChars p u = true ↔ ∃ r, u = p ++ r := by
  induction p generalizing u with
  | nil => simp [hasPrefixChars]
  | cons c cs ih =>
    cases u with
    | nil =>
      simp [hasPrefixChars]
    | cons d ds =>
      simp only [hasPrefixChars, Bool.and_eq_true, beq_iff_eq, ih,
        List.cons_append, List.cons.injEq]
      constructor
      · rintro ⟨rfl, r, rfl⟩
        exact ⟨r, rfl, rfl⟩
      · rintro ⟨r, rfl, rfl⟩
        exact ⟨rfl, r, rfl⟩

theorem hasSubChars_iff (u p : List Char) :
    hasSubChars u p = true ↔ ∃ l r, u = l ++ p ++ r := by
  induction u with
  | nil =>
    simp only [hasSubChars, hasPrefixChars_iff]
    constructor
    · rintro ⟨r, h⟩
      exact ⟨[], r, by simpa using h⟩
    · rintro ⟨l, r, h⟩
      have h2 := h.symm
      simp only [List.append_eq_nil] at h2
      exact ⟨[], by simp [h2.1.2, h2.2]⟩
  | cons c us ih =>
    simp only [hasSubChars, Bool.or_eq_true, hasPrefixChars_iff, ih]
    constructor
    · rintro (⟨r, h⟩ | ⟨l, r, h⟩)
      · exact ⟨[], r, by simpa using h⟩
      · exact ⟨c :: l, r, by simp [h]⟩
    · rintro ⟨l, r, h⟩
      cases l with
      | nil =>
        exact Or.inl ⟨r, by simpa using h⟩
      | cons x ls =>
        simp only [List.cons_append, List.cons.injEq] at h
        exact Or.inr ⟨ls, r, h.2⟩

theorem strContainsSub_iff (haystack needle : String) :
    strContainsSub haystack needle = true ↔ specSubstring needle haystack := by
  simpa [strContainsSub, specSubstring] using
    hasSubChars_iff haystack.toList needle.toList

theorem in_filter_list_iff (tf : TrafficFilter) (uri : String) :
    tf.in_filter_list uri = true ↔ specMatched tf.filter_list uri := by
  simp only [TrafficFilter.in_filter_list, List.any_eq_true, specMatched,
    strContainsSub_iff]

/-! ## Claim theorems -/

/-- Claim C1: for every request handled while the filter is enabled, the
dispatcher's computed blocked flag equals
`(polarity = Deny ∧ some pattern is a substring of the URI) ∨
 (polarity = Allow ∧ no pattern is a substring of the URI)`, and the single
record the dispatcher emits carries exactly that flag. -/
theorem claim_C1_blocked_flag_spec (net : NetEnv) (tf : TrafficFilter)
    (request : HyperRequest) (h : tf.get_enabled = true) :
    (blocked_flag tf request.uri = true ↔ specBlocked tf request.uri)
    ∧ (handle_request net true tf request).1 =
        [{ method := request.method, request := request.uri,
           blocked := blocked_flag tf request.uri }] := by
  constructor
  · cases htf : tf.filter_type with
    | Allow =>
      simp [blocked_flag, TrafficFilter.is_blocking, htf, specBlocked,
        ← in_filter_list_iff]
    | Deny =>
      simp [blocked_flag, TrafficFilter.is_blocking, htf, specBlocked,
        ← in_filter_list_iff]
  · simp [handle_request, h]

/-- Witness for C1 at the deny-list fixture. -/
theorem claim_C1_witness :
    (blocked_flag tfDeny reqGet.uri = true ↔ specBlocked tfDeny reqGet.uri)
    ∧ (handle_request netOk true tfDeny reqGet).1 =
        [{ method := reqGet.method, request := reqGet.uri,
           blocked := blocked_flag tfDeny reqGet.uri }] :=
  claim_C1_blocked_flag_spec netOk tfDeny reqGet rfl

/-- Claim C8: a request handled while the filter is disabled produces no
record, and a request handled while the filter is enabled (with the live
sender the running service always holds) produces exactly one record,
whether or not it is blocked. -/
theorem claim_C8_record_iff_enabled (net : NetEnv) (tf : TrafficFilter)
    (request : HyperRequest) :
    ((handle_request net true tf request).1).length =
      (if tf.get_enabled then 1 else 0) := by
  by_cases h : tf.get_enabled
  · simp [handle_request, h]
  · simp [handle_request, h]

/-- Claim C4 counterexample: a failure to dial the origin on the plain
forward path does not surface as an HTTP error response (although framing
still permits one — nothing has been written yet) and is not a plain
connection close: the `unwrap` on `TcpStream::connect` panics the request
task. -/
theorem claim_C4_counterexample :
    (handle_request netDialFail true tfOff reqPlain).2 =
      DispatchOutcome.task_panicked "connection refused"
    ∧ netDialFail.dial = NetStep.err "connection refused" :=
  ⟨rfl, rfl⟩

/-- Claim C4 (amended): no per-request forwarding failure produces an HTTP
error response. A dial failure panics the per-request task (the connection
is dropped); a handshake or response-read failure propagates as an error
to hyper, which closes the connection; only `RequestEvent`s are emitted,
and processing a `RequestEvent` leaves the status cell (hence `Running`)
unchanged. -/
theorem claim_C4_forward_failures (net : NetEnv) (tf : TrafficFilter)
    (request : HyperRequest) (ev : Bool) (h m : String) (now : Nat)
    (s : CoordState) (r : ProxyRequestLog)
    (hm : ¬ request.method = "CONNECT") (hh : request.host = some h)
    (hnb : (tf.get_enabled && blocked_flag tf request.uri) = false) :
    (net.dial = NetStep.err m →
      (handle_request net ev tf request).2 = DispatchOutcome.task_panicked m)
    ∧ (net.dial = NetStep.ok → net.handshake = NetStep.err m →
      (handle_request net ev tf request).2 = DispatchOutcome.hyper_error m)
    ∧ (net.dial = NetStep.ok → net.handshake = NetStep.ok →
      net.send_request = NetStep.err m →
      (handle_request net ev tf request).2 = DispatchOutcome.hyper_error m)
    ∧ ((handleEventsStep now s (ProxyEvent.RequestEvent r)).1).status
        = s.status := by
  refine ⟨?_, ?_, ?_, rfl⟩ <;>
    intros <;> simp [handle_request, hnb, dispatchRest, hm, hh, *]

/-- Witness for the amended C4 at the dial-failure fixture. -/
theorem claim_C4_witness :
    (netDialFail.dial = NetStep.err "connection refused" →
      (handle_request netDialFail true tfOff reqPlain).2 =
        DispatchOutcome.task_panicked "connection refused")
    ∧ (netDialFail.dial = NetStep.ok →
      netDialFail.handshake = NetStep.err "connection refused" →
      (handle_request netDialFail true tfOff reqPlain).2 =
        DispatchOutcome.hyper_error "connection refused")
    ∧ (netDialFail.dial = NetStep.ok → netDialFail.handshake = NetStep.ok →
      netDialFail.send_request = NetStep.err "connection refused" →
      (handle_request netDialFail true tfOff reqPlain).2 =
        DispatchOutcome.hyper_error "connection refused")
    ∧ ((handleEventsStep 0 runningState
        (ProxyEvent.RequestEvent recSample)).1).status
        = runningState.status :=
  claim_C4_forward_failures netDialFail tfOff reqPlain true "ok.test"
    "connection refused" 0 runningState recSample (by decide) rfl rfl

/-- Claim C2 counterexample: calling `run()` while the status is `Running`
is not a no-op — it spawns the coordinator and the server thread and sends
`Starting` (whose processing by the freshly spawned coordinator overwrites
the status), even though the status is not `Stopped`. -/
theorem claim_C2_counterexample :
    (Proxy.run runningState).spawned_coordinator = true
    ∧ (Proxy.run runningState).spawned_server = true
    ∧ (Proxy.run runningState).sent = some ProxyEvent.Starting
    ∧ ((handleEventsStep 0 (Proxy.run runningState).shared
        ProxyEvent.Starting).1).status = ProxyEvent.Starting
    ∧ ¬ runningState.status = ProxyEvent.Stopped :=
  ⟨rfl, rfl, rfl, rfl, by decide⟩

/-- Claim C2 (amended): `Proxy::run` never consults the status. From every
state it installs a fresh event sender, spawns the coordinator thread,
sends `Starting`, and spawns the server thread. -/
theorem claim_C2_run_unconditional (s : CoordState) :
    (Proxy.run s).spawned_coordinator = true
    ∧ (Proxy.run s).spawned_server = true
    ∧ (Proxy.run s).sent = some ProxyEvent.Starting
    ∧ (Proxy.run s).shared = { s with event := true } :=
  ⟨rfl, rfl, rfl, rfl⟩

/-- Claim C3 counterexample: the port string `"99999"` does not parse as a
`u16`, yet `run()` still issues the start (sends `Starting`) and spawns the
server thread, whose body panics at the `unwrap` on the parse. -/
theorem claim_C3_counterexample :
    parse_u16 (rustTrim "99999") = none
    ∧ Proxy.handle_server_body none true "99999" = ServerOutcome.panicked
    ∧ (Proxy.run initCoordState).spawned_server = true
    ∧ (Proxy.run initCoordState).sent = some ProxyEvent.Starting :=
  ⟨by decide, by decide, rfl, rfl⟩

/-- Claim C3 (amended): `run()` performs no port validation — it issues the
start and spawns the server thread regardless; on a port that fails the
`u16` parse the spawned server thread panics at the `unwrap` before any
bind, so no listener is bound and neither `Running` nor `Error` is sent;
the panic is confined to that thread. -/
theorem claim_C3_invalid_port (port : String) (bind_err : Option String)
    (sender : Bool) (s : CoordState) (h : parse_u16 (rustTrim port) = none) :
    Proxy.handle_server_body bind_err sender port = ServerOutcome.panicked
    ∧ (Proxy.run s).spawned_server = true
    ∧ (Proxy.run s).sent = some ProxyEvent.Starting := by
  refine ⟨?_, rfl, rfl⟩
  simp [Proxy.handle_server_body, h]

/-- Witness for the amended C3 at port `"99999"`. -/
theorem claim_C3_witness :
    Proxy.handle_server_body none true "99999" = ServerOutcome.panicked
    ∧ (Proxy.run initCoordState).spawned_server = true
    ∧ (Proxy.run initCoordState).sent = some ProxyEvent.Starting :=
  claim_C3_invalid_port "99999" none true initCoordState (by decide)

/-- Any status the coordinator can store starting from a storable status
stays storable: never a `RequestEvent` payload and never `Terminated`. -/
theorem storedStatus_invariant (now : Nat) (evs : List ProxyEvent)
    (s : CoordState) (h : isStoredStatus s.status = true) :
    isStoredStatus (handleEventsRun now s evs).status = true := by
  induction evs generalizing s with
  | nil => exact h
  | cons e rest ih =>
    cases e with
    | Starting => exact ih _ rfl
    | Running => exact ih _ rfl
    | Stopped => exact ih _ rfl
    | Error m => exact ih _ rfl
    | Terminating => exact ih _ rfl
    | Terminated => rfl
    | RequestEvent r => exact ih _ h

/-- A storable status is one of the six declared states. -/
theorem storedStatus_declared (e : ProxyEvent)
    (h : isStoredStatus e = true) : isDeclaredStatus e = true := by
  cases e <;> simp_all [isStoredStatus, isDeclaredStatus]

/-- Claim C5 counterexample: from `Stopped`, the command `Terminating` has
no row in the §4.1 table (so the table says the status is unchanged), yet
the coordinator stores `Terminating`. -/
theorem claim_C5_counterexample :
    (handleEventsRun 0 initCoordState [ProxyEvent.Terminating]).status
      = ProxyEvent.Terminating
    ∧ specTransition ProxyEvent.Stopped ProxyEvent.Terminating = none
    ∧ ¬ ProxyEvent.Terminating = ProxyEvent.Stopped :=
  ⟨rfl, rfl, by decide⟩

/-- Claim C5 (amended): over every command sequence from a state whose
status is storable (as `Stopped` initially is), the stored status remains
one of the six declared states — indeed never `Terminated` — but the
transitions do not follow the §4.1 table: each command overwrites the
status unconditionally (`Terminated` stores `Stopped`, `LogRequest` leaves
it unchanged, every other command stores itself), never consulting the
current state. -/
theorem claim_C5_status_always_declared (now : Nat) (evs : List ProxyEvent)
    (s : CoordState) (e : ProxyEvent) (h : isStoredStatus s.status = true) :
    isDeclaredStatus (handleEventsRun now s evs).status = true
    ∧ isStoredStatus (handleEventsRun now s evs).status = true
    ∧ ((handleEventsStep now s e).1).status = actualNextStatus s.status e := by
  have hinv := storedStatus_invariant now evs s h
  refine ⟨storedStatus_declared _ hinv, hinv, ?_⟩
  cases e <;> rfl

/-- Witness for the amended C5 from the initial state. -/
theorem claim_C5_witness :
    isDeclaredStatus (handleEventsRun 0 initCoordState
      [ProxyEvent.Starting, ProxyEvent.Running]).status = true
    ∧ isStoredStatus (handleEventsRun 0 initCoordState
      [ProxyEvent.Starting, ProxyEvent.Running]).status = true
    ∧ ((handleEventsStep 0 initCoordState ProxyEvent.Terminating).1).status
        = actualNextStatus initCoordState.status ProxyEvent.Terminating :=
  claim_C5_status_always_declared 0
    [ProxyEvent.Starting, ProxyEvent.Running] initCoordState
    ProxyEvent.Terminating rfl

/-- Claim C6 counterexample: after `Starting, Running, Terminating` the
status is `Terminating` — not `Running` — yet `run_time()` read at instant
10 returns 7, not 0, because the `Terminating` arm does not clear the
run-time cell. -/
theorem claim_C6_counterexample :
    c6State.status = ProxyEvent.Terminating
    ∧ get_run_time 10 c6State = 7
    ∧ ¬ get_run_time 10 c6State = 0 :=
  ⟨rfl, rfl, by decide⟩

/-- Claim C6 (amended): `run_time()` is 0 exactly when the run-time cell is
unset — initially, and again after `Terminated` — and for a fixed cell it
is monotonically non-decreasing in the reading instant (in particular while
`Running`); but `Terminating` and `Error` entered from `Running` leave the
cell set, so `run_time()` need not be 0 in states other than `Running`. -/
theorem claim_C6_run_time (s s2 : CoordState) (now now1 now2 : Nat)
    (hnone : s.run_time = none) (hle : now1 ≤ now2) :
    get_run_time now s = 0
    ∧ get_run_time now1 s2 ≤ get_run_time now2 s2
    ∧ ((handleEventsStep now s2 ProxyEvent.Terminated).1).run_time = none
    ∧ ((handleEventsStep now s2 ProxyEvent.Running).1).run_time = some now
    ∧ initCoordState.run_time = none := by
  refine ⟨?_, ?_, rfl, rfl, rfl⟩
  · simp [get_run_time, hnone]
  · cases h2 : s2.run_time with
    | none => simp [get_run_time, h2]
    | some t =>
      simp only [get_run_time, h2]
      exact Nat.sub_le_sub_right hle t

/-- Witness for the amended C6. -/
theorem claim_C6_witness :
    get_run_time 5 initCoordState = 0
    ∧ get_run_time 2 runningState ≤ get_run_time 9 runningState
    ∧ ((handleEventsStep 5 runningState ProxyEvent.Terminated).1).run_time
        = none
    ∧ ((handleEventsStep 5 runningState ProxyEvent.Running).1).run_time
        = some 5
    ∧ initCoordState.run_time = none :=
  claim_C6_run_time initCoordState runningState 5 2 9 rfl (by decide)

/-- The request log after `n` consecutive `LogRequest` commands is the old
log with the `n` records appended at the newest end. -/
theorem requests_after_replicate (now n : Nat) (r : ProxyRequestLog)
    (s : CoordState) :
    (handleEventsRun now s
      (List.replicate n (ProxyEvent.RequestEvent r))).requests
      = s.requests ++ List.replicate n r := by
  induction n generalizing s with
  | zero => simp [handleEventsRun]
  | succ k ih =>
    simp only [List.replicate_succ, handleEventsRun, handleEventsStep]
    rw [ih]
    simp [List.append_assoc]

/-- Claim C7 counterexample: 10001 appended records give a log of length
10001, exceeding the spec's recommended capacity constant of 10000 —
nothing is ever dropped. -/
theorem claim_C7_counterexample :
    (handleEventsRun 0 initCoordState
      (List.replicate 10001 (ProxyEvent.RequestEvent recSample))).requests.length
      = 10001
    ∧ 10000 < 10001 := by
  constructor
  · rw [requests_after_replicate]
    rw [show initCoordState.requests = [] from rfl, List.nil_append,
      List.length_replicate]
  · decide

/-- Claim C7 (amended): the request log is unbounded. Each `LogRequest`
appends one record at the newest end and no record is ever dropped: after
`n` consecutive `LogRequest` commands the length has grown by exactly
`n`. -/
theorem claim_C7_log_unbounded (now n : Nat) (s : CoordState)
    (r : ProxyRequestLog) :
    ((handleEventsStep now s (ProxyEvent.RequestEvent r)).1).requests
      = s.requests ++ [r]
    ∧ (handleEventsRun now s
        (List.replicate n (ProxyEvent.RequestEvent r))).requests.length
      = s.requests.length + n := by
  refine ⟨rfl, ?_⟩
  rw [requests_after_replicate]
  simp

/-- Claim C9: processing `Terminated` sets the status to `Stopped`, clears
the run-time cell and the stored event sender, exits the coordinator loop,
and leaves the request log untouched — records persist across stop/start
cycles within a process lifetime. -/
theorem claim_C9_terminated_frame (now : Nat) (s : CoordState) :
    ((handleEventsStep now s ProxyEvent.Terminated).1).status
      = ProxyEvent.Stopped
    ∧ ((handleEventsStep now s ProxyEvent.Terminated).1).run_time = none
    ∧ ((handleEventsStep now s ProxyEvent.Terminated).1).event = false
    ∧ ((handleEventsStep now s ProxyEvent.Terminated).1).requests
        = s.requests
    ∧ (handleEventsStep now s ProxyEvent.Terminated).2 = true :=
  ⟨rfl, rfl, rfl, rfl, rfl⟩

/-- Claim C10: `send(event)` — and hence `stop()` — with no stored sender
delivers nothing to the coordinator and does not panic, so status,
run-time cell and request log are all left unchanged. -/
theorem claim_C10_no_sender_noop (s : CoordState) (e : ProxyEvent)
    (now : Nat) (h : s.event = false) :
    Proxy.send s e = none
    ∧ Proxy.stop s = none
    ∧ deliver now s (Proxy.send s e) = s
    ∧ deliver now s (Proxy.stop s) = s := by
  have hs : Proxy.send s e = none := by simp [Proxy.send, h]
  have ht : Proxy.stop s = none := by simp [Proxy.stop, Proxy.send, h]
  exact ⟨hs, ht, by rw [hs]; rfl, by rw [ht]; rfl⟩

/-- Witness for C10 at the freshly constructed proxy state. -/
theorem claim_C10_witness :
    Proxy.send initCoordState ProxyEvent.Running = none
    ∧ Proxy.stop initCoordState = none
    ∧ deliver 0 initCoordState (Proxy.send initCoordState ProxyEvent.Running)
        = initCoordState
    ∧ deliver 0 initCoordState (Proxy.stop initCoordState) = initCoordState :=
  claim_C10_no_sender_noop initCoordState ProxyEvent.Running 0 rfl
